import Mathlib

/-!
Verification development for the `python-logkeeper` repository.

The development shallowly embeds the core of the repository:
  * `IssueRegistry` (src/logs/core/registry.py): a process-wide table from
    issue names to classes, with the error code stored as the `_error_code`
    attribute of the class object itself;
  * `IssueRegistryAdapter.process` (src/logs/core/adapter.py): the per-call
    enrichment of the structured `extra` mapping with an `error_code` key;
  * `LogFactory` (src/logs/core/factory.py and src/core/factory.py): lazy
    one-time setup, configuration loading with fallback, and the rewriting of
    rotating-file-handler paths.

Python classes are modelled as numeric identities (`Nat`); the mutable
`_error_code` attribute of a class is a separate table from class identity to
string, carried in the registry state.  Python dicts are modelled as
association lists with insert-or-overwrite at the first occurrence, which
preserves `dict` lookup semantics.
-/

/-- Lookup in an association list: the value at the first pair whose key
matches, mirroring Python `dict.get`. -/
def dictGet {α β : Type} [DecidableEq α] (k : α) : List (α × β) → Option β
  | [] => none
  | (k', v) :: rest => if k' = k then some v else dictGet k rest

/-- Insert-or-overwrite in an association list, mirroring Python
`d[k] = v`: an existing binding is overwritten in place, a new binding is
appended at the end (dict insertion order). -/
def dinsert {α β : Type} [DecidableEq α] (k : α) (v : β) : List (α × β) → List (α × β)
  | [] => [(k, v)]
  | (k', v') :: rest => if k' = k then (k, v) :: rest else (k', v') :: dinsert k v rest

/-- A Python value stored in a structured logging extension: either a string
or some other (opaque, truthy) object. -/
inductive PyVal : Type where
  | str (s : String)
  | obj (n : Nat)
deriving DecidableEq

/-- Python truthiness for modelled values: the empty string is falsy. -/
def PyVal.truthy : PyVal → Bool
  | .str s => s ≠ ""
  | .obj _ => true

/-- State of the class-level `IssueRegistry` (src/logs/core/registry.py):
`issues` is the `_issues` dict from name to class, and `codes` records, for
each class identity, the current value of its `_error_code` attribute (absent
when the attribute was never set). -/
structure RegState : Type where
  issues : List (String × Nat)
  codes : List (Nat × String)
deriving DecidableEq

/-- The first positional argument of `IssueRegistry.register`: a string, a
class, or omitted (`None`). -/
inductive NameOrClass : Type where
  | str (s : String)
  | cls (k : Nat)
  | omitted
deriving DecidableEq

/-- A pending decorator returned by `IssueRegistry.register` (branches 2 and
4): it remembers the explicit name (if any; otherwise the class name is used
on application) and the code to set (if any). -/
structure Registrar : Type where
  name : Option String
  code : Option String
deriving DecidableEq

/-- Result of a call to `IssueRegistry.register`: the (decorated) class, a
pending decorator, or a raised `TypeError` with its message. -/
inductive RegResult : Type where
  | cls (k : Nat)
  | registrar (r : Registrar)
  | error (msg : String)
deriving DecidableEq

/-- Whether a `register` call raised. -/
def RegResult.isError : RegResult → Bool
  | .error _ => true
  | _ => false

namespace IssueRegistry

/-- `IssueRegistry.get`: dict lookup of a class by name; absence is a valid
outcome. -/
def get (st : RegState) (name : String) : Option Nat :=
  dictGet name st.issues

/-- The `TypeError` message raised by `IssueRegistry.register` on an argument
combination matching none of the four documented shapes. -/
def invalidUsageMsg : String :=
  "Invalid usage. Expected either:\n" ++
  "1) register(\x27Name\x27, class_obj, code=\x27...\x27),\n" ++
  "2) @register(\x27Name\x27, code=\x27...\x27),\n" ++
  "3) @register (no arguments), or\n" ++
  "4) @register(code=\x27...\x27) where class name is used."

/-- `IssueRegistry.register` (src/logs/core/registry.py).  `cn` gives each
class identity its intrinsic `__name__`.  The four branches are checked in
source order:
1. a string name together with a (truthy) class: store and set the code when
   one was supplied;
2. a string name alone: return a decorator remembering name and code;
3. a class alone: store under the class name; a supplied code is set only
   when the class does not already carry an `_error_code` attribute
   (the `hasattr` guard);
4. nothing but a code: return a decorator remembering the code;
anything else raises `TypeError` with `invalidUsageMsg`. -/
def register (noc : NameOrClass) (class_obj : Option Nat) (code : Option String)
    (cn : Nat → String) (st : RegState) : RegState × RegResult :=
  match noc, class_obj with
  | .str s, some k =>
      (⟨dinsert s k st.issues,
        match code with
        | some c => dinsert k c st.codes
        | none => st.codes⟩, .cls k)
  | .str s, none => (st, .registrar ⟨some s, code⟩)
  | .cls k, none =>
      (⟨dinsert (cn k) k st.issues,
        match code with
        | some c => if (dictGet k st.codes).isSome then st.codes else dinsert k c st.codes
        | none => st.codes⟩, .cls k)
  | .omitted, none =>
      match code with
      | some c => (st, .registrar ⟨none, some c⟩)
      | none => (st, .error invalidUsageMsg)
  | _, _ => (st, .error invalidUsageMsg)

/-- Applying a decorator returned by `register` (branches 2 and 4) to a class
`k`: store under the remembered name (or the class name) and set the code
when one was remembered. -/
def applyRegistrar (r : Registrar) (k : Nat) (cn : Nat → String) (st : RegState) : RegState :=
  ⟨dinsert (r.name.getD (cn k)) k st.issues,
   match r.code with
   | some c => dinsert k c st.codes
   | none => st.codes⟩

/-- `IssueRegistry.get_all_issues`: a snapshot mapping each registered name to
its class together with `getattr(class, "_error_code", None)`. -/
def get_all_issues (st : RegState) : List (String × Nat × Option String) :=
  st.issues.map (fun p => (p.1, (p.2, dictGet p.2 st.codes)))

end IssueRegistry

namespace IssueRegistryAdapter

/-- The error-code resolution performed by `IssueRegistryAdapter.process`
(src/logs/core/adapter.py): read the `issue` key of the extension; when its
value is truthy, look it up in the registry (a non-string value finds nothing
in the string-keyed table); the code is the `_error_code` attribute of the
resolved class, falling back to the sentinel "XXX" when the issue is absent,
falsy, unregistered, or carries no code attribute. -/
def resolveCode (st : RegState) (extra : List (String × PyVal)) : String :=
  let resolved : Option Nat :=
    match dictGet "issue" extra with
    | some (.str s) => if s = "" then none else IssueRegistry.get st s
    | some (.obj _) => none
    | none => none
  match resolved with
  | some k => (dictGet k st.codes).getD "XXX"
  | none => "XXX"

/-- `IssueRegistryAdapter.process`: resolve the code and
`extra.setdefault("error_code", code)`; message and all other keys are passed
through untouched. -/
def process (st : RegState) (msg : String) (extra : List (String × PyVal)) :
    String × List (String × PyVal) :=
  let ec := resolveCode st extra
  match dictGet "error_code" extra with
  | some _ => (msg, extra)
  | none => (msg, extra ++ [("error_code", PyVal.str ec)])

/-- The kwargs-level entry of `process`: `kwargs.setdefault("extra", {})`
supplies an empty extension when the call had none. -/
def processCall (st : RegState) (msg : String) (extra : Option (List (String × PyVal))) :
    String × List (String × PyVal) :=
  process st msg (extra.getD [])

end IssueRegistryAdapter

/-- One handler entry of a logging configuration, with the fields the core
reads: the `class` marker, the optional `filename` and `foldername` keys, and
an optional level. -/
structure HandlerCfg : Type where
  cls : String
  filename : Option String
  foldername : Option String
  level : Option Nat
deriving DecidableEq

/-- The part of a parsed logging configuration the core manipulates: the
`handlers` mapping. -/
structure LogConfig : Type where
  handlers : List (String × HandlerCfg)
deriving DecidableEq

/-- The configuration source as `_setup_logging` observes it: the file is
missing (`FileNotFoundError`), unparseable (`yaml.YAMLError`), or parses to a
configuration whose application by `logging.config.dictConfig` either
succeeds or raises some other exception carried as a message. -/
inductive ConfigSource : Type where
  | missing
  | malformed
  | parsed (cfg : LogConfig) (applyError : Option String)
deriving DecidableEq

/-- Outcome of one run of `_setup_logging`: the fallback `basicConfig` call
(with the handlers it installs), a successfully applied configuration, or a
propagated fatal error message. -/
inductive SetupOutcome : Type where
  | fallbackBasic (handlers : List (String × HandlerCfg))
  | applied (cfg : LogConfig)
  | fatal (msg : String)
deriving DecidableEq

/-- Whether a setup outcome is the propagated fatal error. -/
def SetupOutcome.isFatal : SetupOutcome → Bool
  | .fatal _ => true
  | _ => false

/-- Result of `_setup_logging`: its outcome together with the warning lines
it emitted. -/
structure SetupResult : Type where
  outcome : SetupOutcome
  warnings : List String
deriving DecidableEq

/-- The numeric value of the informational level (`logging.INFO`). -/
def INFO : Nat := 20

/-- Modelled from the stdlib contract of `logging.basicConfig(level=...)`
(external to this repository): it attaches a single console (stream) handler
to the root logger at the given level. -/
def basicConfigHandlers (level : Nat) : List (String × HandlerCfg) :=
  [("console", ⟨"logging.StreamHandler", none, none, some level⟩)]

/-- The warning line emitted when configuration loading falls back. -/
def fallbackWarning : String := "Falling back to default logging config..."

namespace LogsFactory

/-- `LogFactory._setup_logging` (src/logs/core/factory.py): a missing or
unparseable configuration file is recovered by `logging.basicConfig(INFO)`
plus a warning; a configuration that parses is applied by `dictConfig`, and
any exception raised there is re-raised as
`RuntimeError("Unexpected error setting up logging: ...")`. -/
def setup_logging : ConfigSource → SetupResult
  | .missing => ⟨.fallbackBasic (basicConfigHandlers INFO), [fallbackWarning]⟩
  | .malformed => ⟨.fallbackBasic (basicConfigHandlers INFO), [fallbackWarning]⟩
  | .parsed cfg none => ⟨.applied cfg, []⟩
  | .parsed _ (some e) => ⟨.fatal ("Unexpected error setting up logging: " ++ e), []⟩

/-- The `_initialized` class flag together with a count of how many times the
configuration load/apply sequence (`_setup_logging`) has executed. -/
structure FacState : Type where
  initialized : Bool
  loadAttempts : Nat
deriving DecidableEq

/-- The state at process start: `_initialized = False`, no load attempted. -/
def initialFacadeState : FacState := ⟨false, 0⟩

/-- `LogFactory._initialize`: when the flag is still false, run
`_setup_logging` (counted as one load attempt) and, unless it raised, start
the queue listener and set the flag; a raised error propagates and leaves the
flag false.  When the flag is already true, nothing happens. -/
def initializeOnce (src : ConfigSource) (st : FacState) : FacState × Option String :=
  if st.initialized then (st, none)
  else
    match (setup_logging src).outcome with
    | .fatal m => (⟨st.initialized, st.loadAttempts + 1⟩, some m)
    | _ => (⟨true, st.loadAttempts + 1⟩, none)

/-- `LogFactory.create_logger`: ensure initialization, then hand out an
`IssueRegistryAdapter` wrapping the logger of the given name (the adapter
construction itself does not touch the facade state, so the returned state
and propagated error capture the call's effect). -/
def create_logger (src : ConfigSource) (_name : String) (st : FacState) :
    FacState × Option String :=
  initializeOnce src st

/-- A sequence of `create_logger` calls with the given names, threading the
facade state. -/
def runCreateLoggers (src : ConfigSource) : List String → FacState → FacState
  | [], st => st
  | nm :: rest, st => runCreateLoggers src rest (create_logger src nm st).1

end LogsFactory

/-- Python `os.path.join` restricted to the shapes the factory uses: both
components non-empty and relative tails, joined with a separator (an empty
left component yields the right one). -/
def pyJoin (a b : String) : String :=
  if a = "" then b else a ++ "/" ++ b

/-- Python `os.path.dirname` for separator-joined paths without a trailing
separator: everything before the last separator (empty when there is none). -/
def os_dirname (p : String) : String :=
  String.intercalate "/" (p.splitOn "/").dropLast

namespace CoreFactory

/-- One iteration of the rewrite loop of
`LogFactory._setup_file_output_directory` (src/core/factory.py) on a single
handler entry: a handler whose `class` is not the rotating-file-handler
marker is left alone; otherwise the `foldername` key is popped (default ""),
the output folder is `logs/<foldername>` when the hint is truthy and `logs`
otherwise, and a truthy `filename` is rewritten to
`join(log_project_root, output_folder, filename)` with `os.makedirs` on its
dirname (returned as the list of created directories). -/
def processHandlerEntry (root : String) (h : HandlerCfg) : HandlerCfg × List String :=
  if h.cls = "logging.handlers.RotatingFileHandler" then
    let folder := h.foldername.getD ""
    let outputFolder := if folder = "" then "logs" else pyJoin "logs" folder
    let h1 : HandlerCfg := ⟨h.cls, h.filename, none, h.level⟩
    match h.filename with
    | some fn =>
        if fn = "" then (h1, [])
        else
          let newfn := pyJoin root (pyJoin outputFolder fn)
          (⟨h.cls, some newfn, none, h.level⟩, [os_dirname newfn])
    | none => (h1, [])
  else (h, [])

/-- `LogFactory._setup_file_output_directory` (src/core/factory.py).  The
rewrite loop sits inside the `if log_project_root is None:` branch, so an
explicitly supplied root performs no rewriting at all; with no root, the
derived project root (`abspath(join(dirname(__file__), pardir))`, passed here
as `derivedRoot`) is used for every rotating-file handler.  Returns the
updated configuration and the directories passed to `os.makedirs`. -/
def setup_file_output_directory (log_project_root : Option String)
    (derivedRoot : String) (config : LogConfig) : LogConfig × List String :=
  match log_project_root with
  | some _ => (config, [])
  | none =>
      (⟨config.handlers.map (fun p => (p.1, (processHandlerEntry derivedRoot p.2).1))⟩,
       (config.handlers.map (fun p => (processHandlerEntry derivedRoot p.2).2)).flatten)

/-- `LogFactory._setup_logging` (src/core/factory.py): as the logs-package
version, but the parsed configuration is passed through
`_setup_file_output_directory` (with no explicit root) before `dictConfig`
applies it. -/
def setup_logging (derivedRoot : String) : ConfigSource → SetupResult
  | .missing => ⟨.fallbackBasic (basicConfigHandlers INFO), [fallbackWarning]⟩
  | .malformed => ⟨.fallbackBasic (basicConfigHandlers INFO), [fallbackWarning]⟩
  | .parsed cfg none =>
      ⟨.applied (setup_file_output_directory none derivedRoot cfg).1, []⟩
  | .parsed _ (some e) => ⟨.fatal ("Unexpected error setting up logging: " ++ e), []⟩

end CoreFactory

/-- Whether `pat` is a prefix of the second list of characters. -/
def startsWithChars : List Char → List Char → Bool
  | [], _ => true
  | _ :: _, [] => false
  | p :: ps, c :: cs => p == c && startsWithChars ps cs

/-- Whether `pat` occurs contiguously inside the second list of characters. -/
def hasSubChars (pat : List Char) : List Char → Bool
  | [] => pat.isEmpty
  | c :: rest => startsWithChars pat (c :: rest) || hasSubChars pat rest

/-- Whether `pat` occurs as a contiguous substring of `s`. -/
def strHasSub (s pat : String) : Bool :=
  hasSubChars pat.data s.data

/-! ### Helper lemmas about association lists -/

theorem dictGet_dinsert {α β : Type} [DecidableEq α] (k k' : α) (v : β)
    (l : List (α × β)) :
    dictGet k (dinsert k' v l) = if k' = k then some v else dictGet k l := by
  induction l with
  | nil => simp [dictGet, dinsert]
  | cons p rest ih =>
      obtain ⟨pk, pv⟩ := p
      by_cases h1 : pk = k'
      · subst h1
        by_cases h2 : pk = k
        · subst h2
          simp [dictGet, dinsert]
        · simp [dictGet, dinsert, h2]
      · by_cases h2 : pk = k
        · subst h2
          simp [dictGet, dinsert, h1, Ne.symm h1]
        · simp [dictGet, dinsert, h1, h2, ih]

theorem dictGet_append {α β : Type} [DecidableEq α] (k : α) (l l' : List (α × β)) :
    dictGet k (l ++ l') =
      match dictGet k l with
      | some v => some v
      | none => dictGet k l' := by
  induction l with
  | nil => simp [dictGet]
  | cons p rest ih =>
      obtain ⟨pk, pv⟩ := p
      by_cases h : pk = k
      · simp [dictGet, h]
      · simp [dictGet, h, ih]

theorem dictGet_map_val {α β γ : Type} [DecidableEq α] (g : β → γ) (k : α)
    (l : List (α × β)) :
    dictGet k (l.map (fun p => (p.1, g p.2))) = (dictGet k l).map g := by
  induction l with
  | nil => simp [dictGet]
  | cons p rest ih =>
      obtain ⟨pk, pv⟩ := p
      by_cases h : pk = k
      · simp [dictGet, h]
      · simp [dictGet, h, ih]

/-- Bridge: looking a name up in the `get_all_issues` snapshot agrees with
looking it up in the registry table and reading the class attribute. -/
theorem dictGet_get_all_issues (st : RegState) (n : String) :
    dictGet n (IssueRegistry.get_all_issues st) =
      (dictGet n st.issues).map (fun k => (k, dictGet k st.codes)) := by
  unfold IssueRegistry.get_all_issues
  exact dictGet_map_val (fun k => (k, dictGet k st.codes)) n st.issues

/-- String concatenation is associative (via the underlying character
lists). -/
theorem strAppend_assoc (a b c : String) : a ++ b ++ c = a ++ (b ++ c) := by
  apply congrArg String.mk
  simp [String.data_append, List.append_assoc]

/-! ### Concrete sample data used by the witnesses -/

/-- A registry holding one issue, echoing the spec scenario: name
"QuotaExceeded" registered to class 0 with code "E2001". -/
def sampleReg : RegState := ⟨[("QuotaExceeded", 0)], [(0, "E2001")]⟩

/-- A registry whose empty-string name is registered (class 5, code "E9"). -/
def emptyNameReg : RegState := ⟨[("", 5)], [(5, "E9")]⟩

/-- The empty registry. -/
def emptyReg : RegState := ⟨[], []⟩

/-- A concrete class-name assignment for the sample classes. -/
def sampleCn : Nat → String := fun k => if k = 0 then "K0" else "K1"

/-! ### Adapter lemmas -/

/-- When the caller supplied no `error_code`, `process` appends the resolved
code at the end of the extension. -/
theorem process_of_no_error_code (st : RegState) (msg : String)
    (extra : List (String × PyVal)) (hec : dictGet "error_code" extra = none) :
    IssueRegistryAdapter.process st msg extra =
      (msg, extra ++ [("error_code", PyVal.str (IssueRegistryAdapter.resolveCode st extra))]) := by
  unfold IssueRegistryAdapter.process
  rw [hec]

/-- When the caller supplied no `error_code`, the processed extension maps
`error_code` to the resolved code. -/
theorem dictGet_error_code_process (st : RegState) (msg : String)
    (extra : List (String × PyVal)) (hec : dictGet "error_code" extra = none) :
    dictGet "error_code" (IssueRegistryAdapter.process st msg extra).2 =
      some (PyVal.str (IssueRegistryAdapter.resolveCode st extra)) := by
  rw [process_of_no_error_code st msg extra hec]
  rw [dictGet_append]
  rw [hec]
  simp [dictGet]

/-! ### Claim theorems -/

/-- C1: every log emission through the adapter forwards an extension carrying
an `error_code` key; when the call referenced a registered issue (by a
non-empty name) whose class carries a code, `error_code` is that code, and
when the `issue` key is absent or names an unregistered issue, `error_code`
is the fallback sentinel "XXX". -/
theorem adapter_error_code_resolution (st : RegState) (msg : String)
    (extra : List (String × PyVal)) (hec : dictGet "error_code" extra = none) :
    (dictGet "error_code" (IssueRegistryAdapter.process st msg extra).2).isSome = true
    ∧ (∀ name k c, dictGet "issue" extra = some (PyVal.str name) → name ≠ "" →
        IssueRegistry.get st name = some k → dictGet k st.codes = some c →
        dictGet "error_code" (IssueRegistryAdapter.process st msg extra).2 =
          some (PyVal.str c))
    ∧ (dictGet "issue" extra = none →
        dictGet "error_code" (IssueRegistryAdapter.process st msg extra).2 =
          some (PyVal.str "XXX"))
    ∧ (∀ name, dictGet "issue" extra = some (PyVal.str name) →
        IssueRegistry.get st name = none →
        dictGet "error_code" (IssueRegistryAdapter.process st msg extra).2 =
          some (PyVal.str "XXX")) := by
  have key := dictGet_error_code_process st msg extra hec
  refine ⟨by rw [key]; rfl, ?_, ?_, ?_⟩
  · intro name k c hissue hne hget hcode
    rw [key]
    unfold IssueRegistryAdapter.resolveCode
    rw [hissue]
    simp [hne, hget, hcode]
  · intro hissue
    rw [key]
    unfold IssueRegistryAdapter.resolveCode
    rw [hissue]
  · intro name hissue hget
    rw [key]
    unfold IssueRegistryAdapter.resolveCode
    rw [hissue]
    by_cases hne : name = ""
    · simp [hne]
    · simp [hne, hget]

/-- Witness for C1 at the spec scenario: issue "QuotaExceeded" registered
with code "E2001" yields `error_code = "E2001"`. -/
theorem adapter_error_code_resolution_witness :
    dictGet "error_code"
        (IssueRegistryAdapter.process sampleReg "boom"
          [("issue", PyVal.str "QuotaExceeded")]).2 =
      some (PyVal.str "E2001") :=
  (adapter_error_code_resolution sampleReg "boom"
      [("issue", PyVal.str "QuotaExceeded")] (by decide)).2.1
    "QuotaExceeded" 0 "E2001" (by decide) (by decide) (by decide) (by decide)

/-- C5: the adapter forwards the message unchanged, leaves every key other
than `error_code` of the structured extension untouched, and maps
`error_code` to the caller-supplied value when one was present (set-if-absent)
and to the resolved code otherwise. -/
theorem adapter_frame (st : RegState) (msg : String)
    (extra : List (String × PyVal)) (k : String) (hk : k ≠ "error_code") :
    (IssueRegistryAdapter.process st msg extra).1 = msg
    ∧ dictGet k (IssueRegistryAdapter.process st msg extra).2 = dictGet k extra
    ∧ dictGet "error_code" (IssueRegistryAdapter.process st msg extra).2 =
        some ((dictGet "error_code" extra).getD
          (PyVal.str (IssueRegistryAdapter.resolveCode st extra))) := by
  cases hec : dictGet "error_code" extra with
  | some v =>
      unfold IssueRegistryAdapter.process
      rw [hec]
      simp [hec]
  | none =>
      rw [process_of_no_error_code st msg extra hec]
      refine ⟨rfl, ?_, ?_⟩
      · show dictGet k (extra ++ _) = dictGet k extra
        rw [dictGet_append]
        cases h : dictGet k extra with
        | some v => rfl
        | none => simp [dictGet, Ne.symm hk]
      · show dictGet "error_code" (extra ++ _) = _
        rw [dictGet_append]
        rw [hec]
        simp [dictGet, hec]

/-- Witness for C5: a caller-supplied `error_code` survives and the unrelated
key `other` is forwarded unchanged. -/
theorem adapter_frame_witness :
    (IssueRegistryAdapter.process sampleReg "m"
        [("error_code", PyVal.str "CUSTOM"), ("other", PyVal.obj 7)]).1 = "m"
    ∧ dictGet "other"
        (IssueRegistryAdapter.process sampleReg "m"
          [("error_code", PyVal.str "CUSTOM"), ("other", PyVal.obj 7)]).2 =
        dictGet "other" [("error_code", PyVal.str "CUSTOM"), ("other", PyVal.obj 7)]
    ∧ dictGet "error_code"
        (IssueRegistryAdapter.process sampleReg "m"
          [("error_code", PyVal.str "CUSTOM"), ("other", PyVal.obj 7)]).2 =
        some ((dictGet "error_code"
            [("error_code", PyVal.str "CUSTOM"), ("other", PyVal.obj 7)]).getD
          (PyVal.str (IssueRegistryAdapter.resolveCode sampleReg
            [("error_code", PyVal.str "CUSTOM"), ("other", PyVal.obj 7)]))) :=
  adapter_frame sampleReg "m"
    [("error_code", PyVal.str "CUSTOM"), ("other", PyVal.obj 7)] "other" (by decide)

/-- C10: an `issue` key holding the falsy empty string is treated as if no
issue was referenced — the fallback "XXX" is injected — even when the empty
name is registered with a code. -/
theorem adapter_falsy_issue (st : RegState) (msg : String)
    (extra : List (String × PyVal)) (k : Nat) (c : String)
    (hissue : dictGet "issue" extra = some (PyVal.str ""))
    (hreg : IssueRegistry.get st "" = some k)
    (hcode : dictGet k st.codes = some c)
    (hec : dictGet "error_code" extra = none) :
    dictGet "error_code" (IssueRegistryAdapter.process st msg extra).2 =
      some (PyVal.str "XXX") := by
  rw [dictGet_error_code_process st msg extra hec]
  unfold IssueRegistryAdapter.resolveCode
  rw [hissue]
  simp

/-- Witness for C10: the empty name is registered with code "E9", yet an
emission with `issue = ""` gets the sentinel "XXX". -/
theorem adapter_falsy_issue_witness :
    dictGet "error_code"
        (IssueRegistryAdapter.process emptyNameReg "m" [("issue", PyVal.str "")]).2 =
      some (PyVal.str "XXX") :=
  adapter_falsy_issue emptyNameReg "m" [("issue", PyVal.str "")] 5 "E9"
    (by decide) (by decide) (by decide) (by decide)

/-- Counterexample for C2: a call supplying only a code-less name and no kind
matches the documented name-only shape — it returns a registrar and does not
raise. -/
theorem register_name_only_returns_registrar :
    (IssueRegistry.register (NameOrClass.str "OnlyName") none none sampleCn emptyReg).2 =
      RegResult.registrar ⟨some "OnlyName", none⟩
    ∧ (IssueRegistry.register (NameOrClass.str "OnlyName") none none sampleCn
        emptyReg).2.isError = false :=
  ⟨rfl, rfl⟩

/-- C2 (amended): a call to `register` whose arguments match none of the four
accepted shapes — a class first argument together with an explicit class
argument, an omitted first argument together with a class argument, or
nothing at all supplied — raises the invalid-usage `TypeError`, whose message
names all four accepted shapes, and leaves the registry unchanged. -/
theorem register_invalid_usage (noc : NameOrClass) (class_obj : Option Nat)
    (code : Option String) (cn : Nat → String) (st : RegState)
    (hinv : (∃ k j, noc = NameOrClass.cls k ∧ class_obj = some j)
      ∨ (∃ j, noc = NameOrClass.omitted ∧ class_obj = some j)
      ∨ (noc = NameOrClass.omitted ∧ class_obj = none ∧ code = none)) :
    (IssueRegistry.register noc class_obj code cn st).2 =
      RegResult.error IssueRegistry.invalidUsageMsg
    ∧ (IssueRegistry.register noc class_obj code cn st).1 = st
    ∧ strHasSub IssueRegistry.invalidUsageMsg
        "register(\x27Name\x27, class_obj, code=" = true
    ∧ strHasSub IssueRegistry.invalidUsageMsg "@register(\x27Name\x27, code=" = true
    ∧ strHasSub IssueRegistry.invalidUsageMsg "@register (no arguments)" = true
    ∧ strHasSub IssueRegistry.invalidUsageMsg "@register(code=" = true := by
  have hmsg1 : strHasSub IssueRegistry.invalidUsageMsg
      "register(\x27Name\x27, class_obj, code=" = true := by decide
  have hmsg2 : strHasSub IssueRegistry.invalidUsageMsg
      "@register(\x27Name\x27, code=" = true := by decide
  have hmsg3 : strHasSub IssueRegistry.invalidUsageMsg
      "@register (no arguments)" = true := by decide
  have hmsg4 : strHasSub IssueRegistry.invalidUsageMsg "@register(code=" = true := by
    decide
  rcases hinv with ⟨k, j, hnoc, hobj⟩ | ⟨j, hnoc, hobj⟩ | ⟨hnoc, hobj, hcode⟩ <;>
    subst hnoc <;> subst hobj <;>
    first
      | (subst hcode
         exact ⟨rfl, rfl, hmsg1, hmsg2, hmsg3, hmsg4⟩)
      | exact ⟨rfl, rfl, hmsg1, hmsg2, hmsg3, hmsg4⟩

/-- Witness for C2 (amended): calling `register()` with nothing supplied
raises the invalid-usage error. -/
theorem register_invalid_usage_witness :
    (IssueRegistry.register NameOrClass.omitted none none sampleCn emptyReg).2 =
      RegResult.error IssueRegistry.invalidUsageMsg
    ∧ (IssueRegistry.register NameOrClass.omitted none none sampleCn emptyReg).1 =
        emptyReg
    ∧ strHasSub IssueRegistry.invalidUsageMsg
        "register(\x27Name\x27, class_obj, code=" = true
    ∧ strHasSub IssueRegistry.invalidUsageMsg "@register(\x27Name\x27, code=" = true
    ∧ strHasSub IssueRegistry.invalidUsageMsg "@register (no arguments)" = true
    ∧ strHasSub IssueRegistry.invalidUsageMsg "@register(code=" = true :=
  register_invalid_usage NameOrClass.omitted none none sampleCn emptyReg
    (Or.inr (Or.inr ⟨rfl, rfl, rfl⟩))

/-- C3: after each of the four valid registration shapes, `get` on the stored
name returns the registered class, and the `get_all_issues` snapshot maps
that name to the class and the supplied code (absent when none was supplied),
for a class that did not already carry a code attribute. -/
theorem register_four_shapes (st : RegState) (cn : Nat → String) (n : String)
    (k : Nat) (c : String) (hfresh : dictGet k st.codes = none) :
    (IssueRegistry.get
        (IssueRegistry.register (NameOrClass.str n) (some k) (some c) cn st).1 n =
        some k
     ∧ dictGet n (IssueRegistry.get_all_issues
        (IssueRegistry.register (NameOrClass.str n) (some k) (some c) cn st).1) =
        some (k, some c))
    ∧ (IssueRegistry.get
        (IssueRegistry.register (NameOrClass.str n) (some k) none cn st).1 n = some k
     ∧ dictGet n (IssueRegistry.get_all_issues
        (IssueRegistry.register (NameOrClass.str n) (some k) none cn st).1) =
        some (k, (none : Option String)))
    ∧ (IssueRegistry.register (NameOrClass.str n) none (some c) cn st =
        (st, RegResult.registrar ⟨some n, some c⟩)
     ∧ IssueRegistry.get (IssueRegistry.applyRegistrar ⟨some n, some c⟩ k cn st) n =
        some k
     ∧ dictGet n (IssueRegistry.get_all_issues
        (IssueRegistry.applyRegistrar ⟨some n, some c⟩ k cn st)) = some (k, some c))
    ∧ (IssueRegistry.get
        (IssueRegistry.register (NameOrClass.cls k) none none cn st).1 (cn k) = some k
     ∧ dictGet (cn k) (IssueRegistry.get_all_issues
        (IssueRegistry.register (NameOrClass.cls k) none none cn st).1) =
        some (k, (none : Option String)))
    ∧ (IssueRegistry.register NameOrClass.omitted none (some c) cn st =
        (st, RegResult.registrar ⟨none, some c⟩)
     ∧ IssueRegistry.get (IssueRegistry.applyRegistrar ⟨none, some c⟩ k cn st) (cn k) =
        some k
     ∧ dictGet (cn k) (IssueRegistry.get_all_issues
        (IssueRegistry.applyRegistrar ⟨none, some c⟩ k cn st)) = some (k, some c)) := by
  refine ⟨⟨?_, ?_⟩, ⟨?_, ?_⟩, ⟨rfl, ?_, ?_⟩, ⟨?_, ?_⟩, ⟨rfl, ?_, ?_⟩⟩ <;>
    simp [IssueRegistry.get, IssueRegistry.register, IssueRegistry.applyRegistrar,
      dictGet_get_all_issues, dictGet_dinsert, hfresh]

/-- Witness for C3 at a fresh class 1 named "K1" in the empty registry. -/
theorem register_four_shapes_witness :
    (IssueRegistry.get
        (IssueRegistry.register (NameOrClass.str "W") (some 1) (some "E5") sampleCn
          emptyReg).1 "W" = some 1
     ∧ dictGet "W" (IssueRegistry.get_all_issues
        (IssueRegistry.register (NameOrClass.str "W") (some 1) (some "E5") sampleCn
          emptyReg).1) = some (1, some "E5"))
    ∧ (IssueRegistry.get
        (IssueRegistry.register (NameOrClass.str "W") (some 1) none sampleCn
          emptyReg).1 "W" = some 1
     ∧ dictGet "W" (IssueRegistry.get_all_issues
        (IssueRegistry.register (NameOrClass.str "W") (some 1) none sampleCn
          emptyReg).1) = some (1, (none : Option String)))
    ∧ (IssueRegistry.register (NameOrClass.str "W") none (some "E5") sampleCn emptyReg =
        (emptyReg, RegResult.registrar ⟨some "W", some "E5"⟩)
     ∧ IssueRegistry.get
        (IssueRegistry.applyRegistrar ⟨some "W", some "E5"⟩ 1 sampleCn emptyReg) "W" =
        some 1
     ∧ dictGet "W" (IssueRegistry.get_all_issues
        (IssueRegistry.applyRegistrar ⟨some "W", some "E5"⟩ 1 sampleCn emptyReg)) =
        some (1, some "E5"))
    ∧ (IssueRegistry.get
        (IssueRegistry.register (NameOrClass.cls 1) none none sampleCn emptyReg).1
        (sampleCn 1) = some 1
     ∧ dictGet (sampleCn 1) (IssueRegistry.get_all_issues
        (IssueRegistry.register (NameOrClass.cls 1) none none sampleCn emptyReg).1) =
        some (1, (none : Option String)))
    ∧ (IssueRegistry.register NameOrClass.omitted none (some "E5") sampleCn emptyReg =
        (emptyReg, RegResult.registrar ⟨none, some "E5"⟩)
     ∧ IssueRegistry.get
        (IssueRegistry.applyRegistrar ⟨none, some "E5"⟩ 1 sampleCn emptyReg)
        (sampleCn 1) = some 1
     ∧ dictGet (sampleCn 1) (IssueRegistry.get_all_issues
        (IssueRegistry.applyRegistrar ⟨none, some "E5"⟩ 1 sampleCn emptyReg)) =
        some (1, some "E5")) :=
  register_four_shapes emptyReg sampleCn "W" 1 "E5" (by decide)

/-- The registry after `register("N", class 0, code="E1")` on the empty
registry. -/
def regAfterFirst : RegState :=
  (IssueRegistry.register (NameOrClass.str "N") (some 0) (some "E1") sampleCn
    emptyReg).1

/-- `regAfterFirst` after re-registering "N" to the distinct class 1 with no
code. -/
def regAfterSecond : RegState :=
  (IssueRegistry.register (NameOrClass.str "N") (some 1) none sampleCn
    regAfterFirst).1

/-- Counterexample for C4: after "N" is registered to class 0 with code "E1",
re-registering "N" to a different class with no code makes `get_all_issues`
report no code for "N" — the earlier code is not preserved under the name. -/
theorem reregister_new_kind_loses_code :
    dictGet "N" (IssueRegistry.get_all_issues regAfterFirst) = some (0, some "E1")
    ∧ dictGet "N" (IssueRegistry.get_all_issues regAfterSecond) =
        some (1, (none : Option String)) :=
  ⟨rfl, rfl⟩

/-- C4 (amended): the code lives on the kind object, not on the name.
Re-registering a name to the same kind with no code leaves the reported code
intact; re-registering the name to a different kind with no code makes
`get_all_issues` report that kind's own code (absent for a kind that carries
none), while no code attribute is cleared: the earlier code remains on the
old kind object. -/
theorem reregistration_code_on_kind (st : RegState) (cn : Nat → String)
    (n : String) (k0 k1 : Nat) (c : String)
    (hc : dictGet k0 st.codes = some c) (hk1 : dictGet k1 st.codes = none) :
    dictGet n (IssueRegistry.get_all_issues
        (IssueRegistry.register (NameOrClass.str n) (some k0) none cn st).1) =
      some (k0, some c)
    ∧ dictGet n (IssueRegistry.get_all_issues
        (IssueRegistry.register (NameOrClass.str n) (some k1) none cn st).1) =
      some (k1, (none : Option String))
    ∧ (IssueRegistry.register (NameOrClass.str n) (some k1) none cn st).1.codes =
        st.codes
    ∧ dictGet k0
        (IssueRegistry.register (NameOrClass.str n) (some k1) none cn st).1.codes =
      some c := by
  refine ⟨?_, ?_, rfl, hc⟩ <;>
    simp [IssueRegistry.register, dictGet_get_all_issues, dictGet_dinsert, hc, hk1]

/-- Witness for C4 (amended) on a registry where class 0 carries "E1" and
class 1 carries no code. -/
theorem reregistration_code_on_kind_witness :
    dictGet "N" (IssueRegistry.get_all_issues
        (IssueRegistry.register (NameOrClass.str "N") (some 0) none sampleCn
          regAfterFirst).1) = some (0, some "E1")
    ∧ dictGet "N" (IssueRegistry.get_all_issues
        (IssueRegistry.register (NameOrClass.str "N") (some 1) none sampleCn
          regAfterFirst).1) = some (1, (none : Option String))
    ∧ (IssueRegistry.register (NameOrClass.str "N") (some 1) none sampleCn
        regAfterFirst).1.codes = regAfterFirst.codes
    ∧ dictGet 0 (IssueRegistry.register (NameOrClass.str "N") (some 1) none sampleCn
        regAfterFirst).1.codes = some "E1" :=
  reregistration_code_on_kind regAfterFirst sampleCn "N" 0 1 "E1"
    (by decide) (by decide)

/-- C9: the registry stores the code on the class object, so two names
registered to the same class always report the same code in
`get_all_issues`, and registering that class again under any name with a new
code changes the code reported under both names. -/
theorem code_shared_across_names (st : RegState) (cn : Nat → String)
    (n1 n2 n3 : String) (k : Nat) (c : String)
    (h1 : dictGet n1 st.issues = some k) (h2 : dictGet n2 st.issues = some k) :
    dictGet n1 (IssueRegistry.get_all_issues st) = some (k, dictGet k st.codes)
    ∧ dictGet n2 (IssueRegistry.get_all_issues st) = some (k, dictGet k st.codes)
    ∧ dictGet n1 (IssueRegistry.get_all_issues
        (IssueRegistry.register (NameOrClass.str n3) (some k) (some c) cn st).1) =
      some (k, some c)
    ∧ dictGet n2 (IssueRegistry.get_all_issues
        (IssueRegistry.register (NameOrClass.str n3) (some k) (some c) cn st).1) =
      some (k, some c) := by
  have key : ∀ m : String, dictGet m st.issues = some k →
      dictGet m (IssueRegistry.get_all_issues
        (IssueRegistry.register (NameOrClass.str n3) (some k) (some c) cn st).1) =
      some (k, some c) := by
    intro m hm
    rw [dictGet_get_all_issues]
    show (dictGet m (dinsert n3 k st.issues)).map _ = _
    rw [dictGet_dinsert]
    by_cases h : n3 = m <;> simp [h, hm, IssueRegistry.register, dictGet_dinsert]
  refine ⟨?_, ?_, key n1 h1, key n2 h2⟩ <;>
    simp [dictGet_get_all_issues, h1, h2]

/-- Witness for C9: "A" and "B" both registered to class 0; registering class
0 again under "C" with code "E7" changes the code reported for both. -/
theorem code_shared_across_names_witness :
    dictGet "A" (IssueRegistry.get_all_issues
        (⟨[("A", 0), ("B", 0)], []⟩ : RegState)) =
      some (0, dictGet 0 (⟨[("A", 0), ("B", 0)], []⟩ : RegState).codes)
    ∧ dictGet "B" (IssueRegistry.get_all_issues
        (⟨[("A", 0), ("B", 0)], []⟩ : RegState)) =
      some (0, dictGet 0 (⟨[("A", 0), ("B", 0)], []⟩ : RegState).codes)
    ∧ dictGet "A" (IssueRegistry.get_all_issues
        (IssueRegistry.register (NameOrClass.str "C") (some 0) (some "E7") sampleCn
          (⟨[("A", 0), ("B", 0)], []⟩ : RegState)).1) = some (0, some "E7")
    ∧ dictGet "B" (IssueRegistry.get_all_issues
        (IssueRegistry.register (NameOrClass.str "C") (some 0) (some "E7") sampleCn
          (⟨[("A", 0), ("B", 0)], []⟩ : RegState)).1) = some (0, some "E7") :=
  code_shared_across_names (⟨[("A", 0), ("B", 0)], []⟩ : RegState) sampleCn
    "A" "B" "C" 0 "E7" (by decide) (by decide)

/-! ### Facade lemmas -/

/-- A `create_logger` call on an already-initialized facade changes nothing
and propagates no error. -/
theorem create_logger_noop (src : ConfigSource) (nm : String)
    (st : LogsFactory.FacState) (h : st.initialized = true) :
    LogsFactory.create_logger src nm st = (st, none) := by
  unfold LogsFactory.create_logger LogsFactory.initializeOnce
  rw [h]
  simp

/-- Any sequence of `create_logger` calls on an already-initialized facade
leaves the state untouched. -/
theorem runCreateLoggers_noop (src : ConfigSource) (names : List String)
    (st : LogsFactory.FacState) (h : st.initialized = true) :
    LogsFactory.runCreateLoggers src names st = st := by
  induction names with
  | nil => rfl
  | cons nm rest ih =>
      show LogsFactory.runCreateLoggers src rest (LogsFactory.create_logger src nm st).1 = st
      rw [create_logger_noop src nm st h]
      exact ih

/-- The first `create_logger` call on an uninitialized facade, when setup
does not raise, runs the load once and sets the flag. -/
theorem create_logger_first (src : ConfigSource) (nm : String)
    (st : LogsFactory.FacState) (h : st.initialized = false)
    (hok : (LogsFactory.setup_logging src).outcome.isFatal = false) :
    LogsFactory.create_logger src nm st = (⟨true, st.loadAttempts + 1⟩, none) := by
  unfold LogsFactory.create_logger LogsFactory.initializeOnce
  rw [h]
  cases ho : (LogsFactory.setup_logging src).outcome with
  | fatal m => rw [ho] at hok; simp [SetupOutcome.isFatal] at hok
  | fallbackBasic hs => simp
  | applied cfg => simp

/-- C6: the facade flag starts false, flips to true after the first
`create_logger` call of any non-empty call sequence (when setup does not
raise, including the fallback case), the load/apply sequence executes exactly
once over the whole sequence, and a call on an initialized facade performs no
load and changes nothing. -/
theorem facade_initializes_once (src : ConfigSource)
    (hok : (LogsFactory.setup_logging src).outcome.isFatal = false)
    (names : List String) (hne : names ≠ [])
    (st : LogsFactory.FacState) (nm : String) (hinit : st.initialized = true) :
    LogsFactory.initialFacadeState.initialized = false
    ∧ (LogsFactory.runCreateLoggers src names
        LogsFactory.initialFacadeState).initialized = true
    ∧ (LogsFactory.runCreateLoggers src names
        LogsFactory.initialFacadeState).loadAttempts = 1
    ∧ LogsFactory.create_logger src nm st = (st, none) := by
  obtain ⟨nm0, rest, hsplit⟩ := List.exists_cons_of_ne_nil hne
  subst hsplit
  have hfirst := create_logger_first src nm0 LogsFactory.initialFacadeState rfl hok
  have hrun : LogsFactory.runCreateLoggers src (nm0 :: rest)
      LogsFactory.initialFacadeState = ⟨true, 1⟩ := by
    show LogsFactory.runCreateLoggers src rest
        (LogsFactory.create_logger src nm0 LogsFactory.initialFacadeState).1 = _
    rw [hfirst]
    exact runCreateLoggers_noop src rest ⟨true, 1⟩ rfl
  exact ⟨rfl, by rw [hrun], by rw [hrun], create_logger_noop src nm st hinit⟩

/-- Witness for C6: with a missing configuration source (recovered by
fallback), three `create_logger` calls load the configuration exactly once. -/
theorem facade_initializes_once_witness :
    LogsFactory.initialFacadeState.initialized = false
    ∧ (LogsFactory.runCreateLoggers ConfigSource.missing ["a", "b", "c"]
        LogsFactory.initialFacadeState).initialized = true
    ∧ (LogsFactory.runCreateLoggers ConfigSource.missing ["a", "b", "c"]
        LogsFactory.initialFacadeState).loadAttempts = 1
    ∧ LogsFactory.create_logger ConfigSource.missing "again"
        (⟨true, 1⟩ : LogsFactory.FacState) = (⟨true, 1⟩, none) :=
  facade_initializes_once ConfigSource.missing (by decide) ["a", "b", "c"]
    (by decide) ⟨true, 1⟩ "again" rfl

/-- C7: a missing or unparseable configuration source is recovered by the
fallback — a single console handler at the informational level plus the
fallback warning, with no exception — while any failure during configuration
application becomes a fatal error message wrapping the underlying cause. -/
theorem setup_fallback_and_fatal (cfg : LogConfig) (e : String) :
    LogsFactory.setup_logging ConfigSource.missing =
      ⟨SetupOutcome.fallbackBasic (basicConfigHandlers INFO), [fallbackWarning]⟩
    ∧ LogsFactory.setup_logging ConfigSource.malformed =
      ⟨SetupOutcome.fallbackBasic (basicConfigHandlers INFO), [fallbackWarning]⟩
    ∧ basicConfigHandlers INFO =
      [("console", ⟨"logging.StreamHandler", none, none, some 20⟩)]
    ∧ (LogsFactory.setup_logging ConfigSource.missing).outcome.isFatal = false
    ∧ (LogsFactory.setup_logging ConfigSource.malformed).outcome.isFatal = false
    ∧ LogsFactory.setup_logging (ConfigSource.parsed cfg none) =
      ⟨SetupOutcome.applied cfg, []⟩
    ∧ LogsFactory.setup_logging (ConfigSource.parsed cfg (some e)) =
      ⟨SetupOutcome.fatal ("Unexpected error setting up logging: " ++ e), []⟩ :=
  ⟨rfl, rfl, rfl, rfl, rfl, rfl, rfl⟩

/-- Reduction of the rewrite loop body on a rotating-file handler with a
truthy filename. -/
theorem processHandlerEntry_eq (root : String) (h : HandlerCfg) (fn : String)
    (hcls : h.cls = "logging.handlers.RotatingFileHandler")
    (hfn : h.filename = some fn) (hfne : fn ≠ "") :
    CoreFactory.processHandlerEntry root h =
      (⟨"logging.handlers.RotatingFileHandler",
        some (pyJoin root (pyJoin (if h.foldername.getD "" = "" then "logs"
          else pyJoin "logs" (h.foldername.getD "")) fn)), none, h.level⟩,
       [os_dirname (pyJoin root (pyJoin (if h.foldername.getD "" = "" then "logs"
          else pyJoin "logs" (h.foldername.getD "")) fn))]) := by
  unfold CoreFactory.processHandlerEntry
  rw [hcls, hfn]
  simp [hfne, hcls]

/-- A string with a non-empty left part of a concatenation is non-empty. -/
theorem strAppend_left_ne_empty (a b : String) (ha : a ≠ "") : a ++ b ≠ "" := by
  intro hcontra
  apply ha
  have hdata := congrArg String.data hcontra
  rw [String.data_append] at hdata
  have ha' : a.data = [] := (List.append_eq_nil.mp hdata).1
  cases a
  simpa using congrArg String.mk ha'

/-- C8: during core setup, every handler entry bearing the rotating-file
marker and a (truthy) filename survives into the applied configuration with
its `filename` rewritten to an absolute path under the logs root — ending in
`logs/<foldername>/<filename>` when a non-empty foldername hint is present
and in `logs/<filename>` when it is absent — its `foldername` key removed,
and the containing directory among those passed to `os.makedirs`; the
configuration applied by `dictConfig` is exactly the rewritten one. -/
theorem rotating_handler_path_rewrite (droot : String) (hroot : droot ≠ "")
    (cfg : LogConfig) (key : String) (h : HandlerCfg) (fn : String)
    (hmem : (key, h) ∈ cfg.handlers)
    (hcls : h.cls = "logging.handlers.RotatingFileHandler")
    (hfn : h.filename = some fn) (hfne : fn ≠ "") :
    (key, (CoreFactory.processHandlerEntry droot h).1) ∈
      (CoreFactory.setup_file_output_directory none droot cfg).1.handlers
    ∧ (CoreFactory.processHandlerEntry droot h).1.foldername = none
    ∧ (∀ f, h.foldername = some f → f ≠ "" →
        ∃ pre, (CoreFactory.processHandlerEntry droot h).1.filename =
            some (pre ++ ("logs" ++ "/" ++ f ++ "/" ++ fn)) ∧ pre = droot ++ "/")
    ∧ (h.foldername = none →
        ∃ pre, (CoreFactory.processHandlerEntry droot h).1.filename =
            some (pre ++ ("logs" ++ "/" ++ fn)) ∧ pre = droot ++ "/")
    ∧ (∀ nf, (CoreFactory.processHandlerEntry droot h).1.filename = some nf →
        os_dirname nf ∈ (CoreFactory.setup_file_output_directory none droot cfg).2)
    ∧ (CoreFactory.setup_logging droot (ConfigSource.parsed cfg none)).outcome =
        SetupOutcome.applied (CoreFactory.setup_file_output_directory none droot cfg).1 := by
  have hmain := processHandlerEntry_eq droot h fn hcls hfn hfne
  refine ⟨?_, ?_, ?_, ?_, ?_, rfl⟩
  · show (key, (CoreFactory.processHandlerEntry droot h).1) ∈
      cfg.handlers.map (fun p => (p.1, (CoreFactory.processHandlerEntry droot p.2).1))
    exact List.mem_map_of_mem _ hmem
  · rw [hmain]
  · intro f hf hfne2
    refine ⟨droot ++ "/", ?_, rfl⟩
    rw [hmain]
    simp only [hf, Option.getD_some]
    have h1 : ("logs/" : String) ++ f ≠ "" :=
      strAppend_left_ne_empty "logs/" f (by decide)
    have h2 : ("logs" : String) ++ "/" ++ f ≠ "" :=
      strAppend_left_ne_empty ("logs" ++ "/") f (by decide)
    simp [pyJoin, hroot, hfne2, h1, h2]
  · intro hf
    refine ⟨droot ++ "/", ?_, rfl⟩
    rw [hmain]
    simp only [hf, Option.getD_none]
    simp [pyJoin, hroot]
  · intro nf hnf
    rw [hmain] at hnf
    show os_dirname nf ∈
      (cfg.handlers.map (fun p => (CoreFactory.processHandlerEntry droot p.2).2)).flatten
    apply List.mem_flatten.mpr
    refine ⟨(CoreFactory.processHandlerEntry droot h).2, List.mem_map_of_mem _ hmem, ?_⟩
    rw [hmain]
    simp only [Option.some_inj] at hnf
    simp [hnf]

/-- Witness for C8 at the spec scenario: `filename: "app.log"`,
`foldername: "worker"` under root "/proj/src" resolves to
`/proj/src/logs/worker/app.log` and its directory is created. -/
theorem rotating_handler_path_rewrite_witness :
    (CoreFactory.processHandlerEntry "/proj/src"
        ⟨"logging.handlers.RotatingFileHandler", some "app.log", some "worker",
          none⟩).1.filename = some "/proj/src/logs/worker/app.log"
    ∧ os_dirname "/proj/src/logs/worker/app.log" ∈
        (CoreFactory.setup_file_output_directory none "/proj/src"
          ⟨[("file", ⟨"logging.handlers.RotatingFileHandler", some "app.log",
            some "worker", none⟩)]⟩).2 := by
  have hw := rotating_handler_path_rewrite "/proj/src" (by decide)
      ⟨[("file", ⟨"logging.handlers.RotatingFileHandler", some "app.log",
        some "worker", none⟩)]⟩ "file"
      ⟨"logging.handlers.RotatingFileHandler", some "app.log", some "worker", none⟩
      "app.log" (by simp) rfl rfl (by decide)
  obtain ⟨pre, hfname, hpre⟩ := hw.2.2.1 "worker" rfl (by decide)
  subst hpre
  have hlit : (CoreFactory.processHandlerEntry "/proj/src"
      ⟨"logging.handlers.RotatingFileHandler", some "app.log", some "worker",
        none⟩).1.filename = some "/proj/src/logs/worker/app.log" := by
    rw [hfname]
    rfl
  exact ⟨hlit, hw.2.2.2.2.1 "/proj/src/logs/worker/app.log" hlit⟩
